import Mathlib

/-! Verification of the closed-loop control and safety-supervision core of the
battery-cycling test stack: the PID controller (src/PIDcontroller.py) and the
safety monitor (src/Safety.py), shallowly embedded in Lean.

Modelling conventions: Python floats are modelled as rationals; Python
division is total here with x / 0 = 0, and every division the embedded code
performs is guarded exactly as in the source, so the guard (not totality)
is what prevents a division by zero.  Python negative indexing
history[-k] (for 1 <= k <= len) is modelled as List.getD (len - k); the k = 0
case, where Python reads history[0], is handled explicitly in negGet.  A
Python method that mutates self and returns a value becomes a function from
the state to (new state, value). -/

/-! PID controller (src/PIDcontroller.py). -/

/-- Bounded history buffer push: append, then evict the oldest entry if the
capacity is exceeded (lines 48-50 and 81-83 of src/PIDcontroller.py). -/
def pushBounded (xs : List ℚ) (x : ℚ) (cap : ℕ) : List ℚ :=
  let ys := xs ++ [x]
  if cap < ys.length then ys.drop 1 else ys

/-- State of PIDController (src/PIDcontroller.py lines 2-31). -/
structure PIDController where
  kp : ℚ
  ki : ℚ
  kd : ℚ
  setpoint : ℚ
  dt : ℚ
  output_limits : Option (ℚ × ℚ)
  integral : ℚ
  prev_error : ℚ
  last_output : ℚ
  error_history : List ℚ
  output_history : List ℚ
  max_history : ℕ
  deriving DecidableEq

/-- PIDController constructor (src/PIDcontroller.py lines 2-31): stores the
configuration and zeroes the state.  The source performs no validation of any
argument; in particular dt is stored unchecked. -/
def PIDController.init (kp ki kd setpoint dt : ℚ)
    (output_limits : Option (ℚ × ℚ)) : PIDController :=
  { kp := kp
    ki := ki
    kd := kd
    setpoint := setpoint
    dt := dt
    output_limits := output_limits
    integral := 0
    prev_error := 0
    last_output := 0
    error_history := []
    output_history := []
    max_history := 100 }

/-- PIDController.update (src/PIDcontroller.py lines 33-85). -/
def PIDController.update (c : PIDController) (measured_value : ℚ) :
    PIDController × ℚ :=
  let error := c.setpoint - measured_value
  let error_history1 := pushBounded c.error_history error c.max_history
  let p_term := c.kp * error
  let integral1 := c.integral + error * c.dt
  let i_term := c.ki * integral1
  let d_term := c.kd * (error - c.prev_error) / c.dt
  let output1 := p_term + i_term + d_term
  let clamped :=
    match c.output_limits with
    | none => (integral1, output1)
    | some (lo, hi) =>
        let output_limited := max lo (min output1 hi)
        (if output1 ≠ output_limited then
          integral1 -
            (if c.ki ≠ 0 then (output1 - output_limited) * c.dt / c.ki else 0)
         else integral1,
         output_limited)
  let output_history1 := pushBounded c.output_history clamped.2 c.max_history
  ({ c with
      integral := clamped.1
      prev_error := error
      last_output := clamped.2
      error_history := error_history1
      output_history := output_history1 }, clamped.2)

/-- PIDController.reset (src/PIDcontroller.py lines 87-94). -/
def PIDController.reset (c : PIDController) : PIDController :=
  { c with
      integral := 0
      prev_error := 0
      error_history := []
      output_history := [] }

/-- PIDController.set_tunings (src/PIDcontroller.py lines 96-110). -/
def PIDController.set_tunings (c : PIDController) (kp ki kd : Option ℚ) :
    PIDController :=
  { c with
      kp := kp.getD c.kp
      ki := ki.getD c.ki
      kd := kd.getD c.kd }

/-- PIDController.set_setpoint (src/PIDcontroller.py lines 112-119). -/
def PIDController.set_setpoint (c : PIDController) (setpoint : ℚ) :
    PIDController :=
  { c with setpoint := setpoint }

/-- The raw (pre-clamp) output of one update call: the sum of the
proportional, integral (after this call's accumulation) and derivative terms,
exactly as computed at src/PIDcontroller.py lines 52-63. -/
def PIDController.rawOutput (c : PIDController) (x : ℚ) : ℚ :=
  let error := c.setpoint - x
  c.kp * error + c.ki * (c.integral + error * c.dt) +
    c.kd * (error - c.prev_error) / c.dt

/-- A sequence of update calls, discarding the returned outputs. -/
def PIDController.runUpdates (c : PIDController) (xs : List ℚ) :
    PIDController :=
  xs.foldl (fun c x => (c.update x).1) c

/-! Safety monitor (src/Safety.py). -/

/-- check_safety (src/Safety.py lines 5-24): absolute-threshold check. -/
def check_safety (voltage force max_voltage max_force : ℚ) : Bool :=
  if max_voltage < |voltage| then false
  else if max_force < |force| then false
  else true

/-- Python negative indexing history[-k] on a guarded in-range access: for
k = 0 Python reads history[0], otherwise history[len - k]. -/
def negGet (l : List (ℚ × ℚ × ℚ)) (k : ℕ) : ℚ × ℚ × ℚ :=
  if k = 0 then l.getD 0 (0, 0, 0) else l.getD (l.length - k) (0, 0, 0)

/-- dynamic_safety_check (src/Safety.py lines 27-74): absolute check first,
then, with more than window_size samples of history, a rate-of-change check
of the current sample against history[-window_size], guarded by dt > 0. -/
def dynamic_safety_check (voltage force : ℚ) (history : List (ℚ × ℚ × ℚ))
    (max_voltage max_force max_voltage_rate max_force_rate : ℚ)
    (window_size : ℕ) : Bool :=
  if check_safety voltage force max_voltage max_force = false then false
  else if window_size < history.length then
    let time_now := (history.getD (history.length - 1) (0, 0, 0)).2.2
    let time_past := (negGet history window_size).2.2
    let dtq := time_now - time_past
    if 0 < dtq then
      let voltage_past := (negGet history window_size).1
      let voltage_rate := |voltage - voltage_past| / dtq
      let force_past := (negGet history window_size).2.1
      let force_rate := |force - force_past| / dtq
      if max_voltage_rate < voltage_rate then false
      else if max_force_rate < force_rate then false
      else true
    else true
  else true

/-- Bounded deque append (collections.deque with maxlen, src/Safety.py line
101): append, evicting from the front once past capacity. -/
def dequeAppend (xs : List (ℚ × ℚ × ℚ)) (x : ℚ × ℚ × ℚ) (maxlen : ℕ) :
    List (ℚ × ℚ × ℚ) :=
  let ys := xs ++ [x]
  if maxlen < ys.length then ys.drop (ys.length - maxlen) else ys

/-- State of SafetyMonitor (src/Safety.py lines 77-108). -/
structure SafetyMonitor where
  max_voltage : ℚ
  max_force : ℚ
  max_voltage_rate : ℚ
  max_force_rate : ℚ
  history_length : ℕ
  history : List (ℚ × ℚ × ℚ)
  consecutive_warnings : ℕ
  max_consecutive_warnings : ℕ
  is_safe : Bool
  deriving DecidableEq

/-- SafetyMonitor constructor (src/Safety.py lines 82-108). -/
def SafetyMonitor.init (max_voltage max_force max_voltage_rate
    max_force_rate : ℚ) (history_length : ℕ) : SafetyMonitor :=
  { max_voltage := max_voltage
    max_force := max_force
    max_voltage_rate := max_voltage_rate
    max_force_rate := max_force_rate
    history_length := history_length
    history := []
    consecutive_warnings := 0
    max_consecutive_warnings := 3
    is_safe := true }

/-- SafetyMonitor.add_sample (src/Safety.py lines 110-119). -/
def SafetyMonitor.add_sample (m : SafetyMonitor) (voltage force timestamp : ℚ) :
    SafetyMonitor :=
  { m with history := dequeAppend m.history (voltage, force, timestamp)
                        m.history_length }

/-- The dynamic-check step of SafetyMonitor.check (src/Safety.py lines
143-151): call dynamic_safety_check on the post-append history only when it
holds more than 5 samples, passing the monitor's thresholds and leaving
window_size at its default of 5. -/
def SafetyMonitor.dynamicSafe (m1 : SafetyMonitor) (voltage force : ℚ) : Bool :=
  if 5 < m1.history.length then
    dynamic_safety_check voltage force m1.history m1.max_voltage m1.max_force
      m1.max_voltage_rate m1.max_force_rate 5
  else true

/-- SafetyMonitor.check (src/Safety.py lines 121-165). -/
def SafetyMonitor.check (m : SafetyMonitor) (voltage force timestamp : ℚ) :
    SafetyMonitor × Bool :=
  let m1 := m.add_sample voltage force timestamp
  let basic_safe := check_safety voltage force m1.max_voltage m1.max_force
  if basic_safe = false then
    let m2 := { m1 with is_safe := false }
    (m2, m2.is_safe)
  else
    let dynamic_safe := m1.dynamicSafe voltage force
    let m2 := { m1 with consecutive_warnings :=
                  if dynamic_safe = false then m1.consecutive_warnings + 1
                  else 0 }
    let m3 := if m2.max_consecutive_warnings ≤ m2.consecutive_warnings then
                { m2 with is_safe := false }
              else m2
    (m3, m3.is_safe)

/-- A sequence of check calls, discarding the returned verdicts. -/
def SafetyMonitor.runChecks (m : SafetyMonitor)
    (samples : List (ℚ × ℚ × ℚ)) : SafetyMonitor :=
  samples.foldl (fun m s => (m.check s.1 s.2.1 s.2.2).1) m

/-- A five-sample warm-up history with strictly increasing timestamps, used
to exercise the rate-check path of the monitor on concrete data. -/
def warmHistory : List (ℚ × ℚ × ℚ) :=
  [(0, 0, 0), (0, 0, 1), (0, 0, 2), (0, 0, 3), (0, 0, 4)]

/-- A monitor at default-like thresholds whose history already holds the five
warm-up samples, so that the next check call runs the rate check. -/
def warmMonitor : SafetyMonitor :=
  { SafetyMonitor.init 5 100 (1 / 2) 10 100 with history := warmHistory }

/-! Helper lemmas. -/

/-- check_safety returns false exactly when an absolute threshold is
exceeded. -/
theorem check_safety_eq_false_iff (v f mv mf : ℚ) :
    check_safety v f mv mf = false ↔ mv < |v| ∨ mf < |f| := by
  unfold check_safety
  by_cases h1 : mv < |v| <;> by_cases h2 : mf < |f| <;> simp [h1, h2]

/-- check returns exactly the is_safe flag of the state it leaves behind. -/
theorem check_snd_eq (m : SafetyMonitor) (v f t : ℚ) :
    (m.check v f t).2 = (m.check v f t).1.is_safe := by
  simp only [SafetyMonitor.check]
  split
  · rfl
  · split <;> rfl

/-- check never clears a latched-false is_safe flag. -/
theorem check_keeps_latched (m : SafetyMonitor) (v f t : ℚ)
    (h : m.is_safe = false) : (m.check v f t).1.is_safe = false := by
  simp only [SafetyMonitor.check]
  split
  · rfl
  · split <;> simp [SafetyMonitor.add_sample, h]

/-- A whole run of check calls never clears a latched-false is_safe flag. -/
theorem runChecks_keeps_latched (m : SafetyMonitor)
    (samples : List (ℚ × ℚ × ℚ)) (h : m.is_safe = false) :
    (m.runChecks samples).is_safe = false := by
  induction samples generalizing m with
  | nil => exact h
  | cons s rest ih =>
      simp only [SafetyMonitor.runChecks, List.foldl_cons]
      exact ih _ (check_keeps_latched m s.1 s.2.1 s.2.2 h)

/-- Counter update of a check call that passes the absolute threshold check. -/
theorem check_counter_of_basic_true (m : SafetyMonitor) (v f t : ℚ)
    (h : check_safety v f m.max_voltage m.max_force = true) :
    (m.check v f t).1.consecutive_warnings =
      if (m.add_sample v f t).dynamicSafe v f = false then
        m.consecutive_warnings + 1
      else 0 := by
  have h1 : check_safety v f (m.add_sample v f t).max_voltage
      (m.add_sample v f t).max_force = true := h
  simp only [SafetyMonitor.check, h1]
  split
  · simp_all
  · split <;> split <;> rfl

/-- is_safe update of a check call that passes the absolute threshold check. -/
theorem check_is_safe_of_basic_true (m : SafetyMonitor) (v f t : ℚ)
    (h : check_safety v f m.max_voltage m.max_force = true) :
    (m.check v f t).1.is_safe =
      if m.max_consecutive_warnings ≤ (m.check v f t).1.consecutive_warnings
      then false else m.is_safe := by
  have h1 : check_safety v f (m.add_sample v f t).max_voltage
      (m.add_sample v f t).max_force = true := h
  simp only [SafetyMonitor.check, h1]
  split
  · simp_all
  · split <;> split <;> simp_all [SafetyMonitor.add_sample]

/-- The guard chain of the rate check, rewritten as a conjunction of
non-exceedance conditions. -/
theorem rate_branch_eq (P Q : Prop) [Decidable P] [Decidable Q] :
    (if P then false else if Q then false else true) =
      (decide (¬ P) && decide (¬ Q)) := by
  by_cases hP : P <;> by_cases hQ : Q <;> simp [hP, hQ]

/-- Python history[-5] is history[len - 5]. -/
theorem negGet_five (l : List (ℚ × ℚ × ℚ)) :
    negGet l 5 = l.getD (l.length - 5) (0, 0, 0) := by
  unfold negGet
  simp

/-- Once the absolute check has passed, dynamicSafe is exactly the windowed
rate comparison over the monitor's history at window size 5. -/
theorem dynamicSafe_eq_of_basic_true (m1 : SafetyMonitor) (v f : ℚ)
    (h : check_safety v f m1.max_voltage m1.max_force = true) :
    m1.dynamicSafe v f =
      if 5 < m1.history.length then
        (let past := m1.history.getD (m1.history.length - 5) (0, 0, 0)
         let dtq := (m1.history.getD (m1.history.length - 1) (0, 0, 0)).2.2 -
           past.2.2
         if 0 < dtq then
           decide (|v - past.1| / dtq ≤ m1.max_voltage_rate) &&
             decide (|f - past.2.1| / dtq ≤ m1.max_force_rate)
         else true)
      else true := by
  unfold SafetyMonitor.dynamicSafe dynamic_safety_check
  simp only [negGet_five, h, Bool.true_eq_false, if_false]
  split
  · split
    · rw [rate_branch_eq]
      simp [not_lt]
    · rfl
  · rfl

/-- Output and integral accumulator of one update call when output limits are
configured. -/
theorem update_some_limits (c : PIDController) (x lo hi : ℚ)
    (hlim : c.output_limits = some (lo, hi)) :
    (c.update x).2 = max lo (min (c.rawOutput x) hi) ∧
    (c.update x).1.integral =
      (if c.rawOutput x ≠ max lo (min (c.rawOutput x) hi) then
        (c.integral + (c.setpoint - x) * c.dt) -
          (if c.ki ≠ 0 then
            (c.rawOutput x - max lo (min (c.rawOutput x) hi)) * c.dt / c.ki
           else 0)
       else c.integral + (c.setpoint - x) * c.dt) := by
  unfold PIDController.update PIDController.rawOutput
  rw [hlim]
  exact ⟨rfl, rfl⟩

/-- Shape of the guarded counter update: a warning is recorded exactly when
both guards held and one of the two rate conditions failed. -/
theorem nested_guard_counter (C5 CDT P Q : Prop) [Decidable C5]
    [Decidable CDT] [Decidable P] [Decidable Q] (n : ℕ) :
    (if (if C5 then (if CDT then decide P && decide Q else true) else true) =
        false then n + 1 else 0) =
      (if C5 then (if CDT then (if P ∧ Q then 0 else n + 1) else 0)
       else 0) := by
  by_cases h5 : C5 <;> by_cases hdt : CDT <;> by_cases hP : P <;>
    by_cases hQ : Q <;> simp [h5, hdt, hP, hQ]

/-! Claim theorems. -/

/-- C1: for every SafetyMonitor state and every sample with an absolute
threshold exceeded, check appends the sample to history and returns false
immediately with is_safe latched false, while the rate check is skipped and
consecutive_warnings is left unchanged. -/
theorem absolute_trip_shortcircuit (m : SafetyMonitor) (v f t : ℚ)
    (h : m.max_voltage < |v| ∨ m.max_force < |f|) :
    (m.check v f t).2 = false ∧
    (m.check v f t).1.is_safe = false ∧
    (m.check v f t).1.history =
      dequeAppend m.history (v, f, t) m.history_length ∧
    (m.check v f t).1.consecutive_warnings = m.consecutive_warnings := by
  have hb : check_safety v f m.max_voltage m.max_force = false :=
    (check_safety_eq_false_iff v f m.max_voltage m.max_force).mpr h
  have hb1 : check_safety v f (m.add_sample v f t).max_voltage
      (m.add_sample v f t).max_force = false := hb
  refine ⟨?_, ?_, ?_, ?_⟩ <;>
    simp [SafetyMonitor.check, hb, hb1, SafetyMonitor.add_sample]

theorem absolute_trip_shortcircuit_witness :
    ((SafetyMonitor.init 5 100 (1 / 2) 10 100).check 10 0 0).2 = false :=
  (absolute_trip_shortcircuit (SafetyMonitor.init 5 100 (1 / 2) 10 100)
    10 0 0 (Or.inl (by decide))).1

/-- C2: one-way latch — from any state with is_safe false, every check call
returns false whatever the sample is, and no sequence of check calls ever
makes is_safe true again. -/
theorem is_safe_one_way_latch (m : SafetyMonitor) (h : m.is_safe = false) :
    (∀ v f t : ℚ, (m.check v f t).2 = false) ∧
    (∀ samples : List (ℚ × ℚ × ℚ),
      (m.runChecks samples).is_safe = false) := by
  constructor
  · intro v f t
    rw [check_snd_eq]
    exact check_keeps_latched m v f t h
  · intro samples
    exact runChecks_keeps_latched m samples h

theorem is_safe_one_way_latch_witness :
    (SafetyMonitor.check
      ({ SafetyMonitor.init 5 100 (1 / 2) 10 100 with is_safe := false })
      0 0 0).2 = false :=
  (is_safe_one_way_latch
    ({ SafetyMonitor.init 5 100 (1 / 2) 10 100 with is_safe := false })
    rfl).1 0 0 0

/-- C3: contrary to the claim, the PIDController constructor performs no
validation whatsoever — it accepts time_step = 0 (or any nonpositive value)
and stores it, so construction succeeds and the division by dt is deferred to
the first update call instead of failing fast. -/
theorem init_accepts_nonpositive_dt (kp ki kd sp : ℚ)
    (lims : Option (ℚ × ℚ)) :
    (PIDController.init kp ki kd sp 0 lims).dt = 0 ∧
    (PIDController.init kp ki kd sp 0 lims).kp = kp ∧
    (PIDController.init kp ki kd sp 0 lims).integral = 0 ∧
    (PIDController.init kp ki kd sp (-1) lims).dt = -1 :=
  ⟨rfl, rfl, rfl, rfl⟩

/-- C4: the rate check runs exactly when the post-append history holds more
than window_size = 5 samples, comparing the current sample against the entry
at Python index -window_size with rates computed as absolute difference over
dt; with at most window_size samples the check is vacuously passed (counter
reset to 0). -/
theorem rate_check_window_semantics (m : SafetyMonitor) (v f t : ℚ)
    (habs : check_safety v f m.max_voltage m.max_force = true) :
    (m.check v f t).1.consecutive_warnings =
      (let hist1 := dequeAppend m.history (v, f, t) m.history_length
       if 5 < hist1.length then
         (let past := hist1.getD (hist1.length - 5) (0, 0, 0)
          let dtq := (hist1.getD (hist1.length - 1) (0, 0, 0)).2.2 - past.2.2
          if 0 < dtq then
            (if |v - past.1| / dtq ≤ m.max_voltage_rate ∧
                |f - past.2.1| / dtq ≤ m.max_force_rate then 0
             else m.consecutive_warnings + 1)
          else 0)
       else 0) := by
  have h1 : check_safety v f (m.add_sample v f t).max_voltage
      (m.add_sample v f t).max_force = true := habs
  rw [check_counter_of_basic_true m v f t habs,
    dynamicSafe_eq_of_basic_true (m.add_sample v f t) v f h1]
  simp only [SafetyMonitor.add_sample]
  exact nested_guard_counter _ _ _ _ m.consecutive_warnings

theorem rate_check_window_semantics_witness :
    (warmMonitor.check 3 0 5).1.consecutive_warnings = 1 := by
  rw [rate_check_window_semantics warmMonitor 3 0 5 (by decide)]
  norm_num [warmMonitor, warmHistory, SafetyMonitor.init, dequeAppend,
    List.getD]

/-- C5: anti-windup — with output limits configured and a raw output outside
[lo, hi], the returned output is the nearest bound and the integral
accumulator is corrected by subtracting (raw - clamped) * dt / ki when
ki is nonzero (no correction when ki = 0); a raw output inside the limits
leaves the accumulator at its uncorrected value. -/
theorem anti_windup_integral_correction (c : PIDController) (x lo hi : ℚ)
    (hlim : c.output_limits = some (lo, hi)) (hle : lo ≤ hi) :
    (hi < c.rawOutput x →
       (c.update x).2 = hi ∧
       (c.update x).1.integral =
         c.integral + (c.setpoint - x) * c.dt -
           (if c.ki ≠ 0 then (c.rawOutput x - hi) * c.dt / c.ki else 0)) ∧
    (c.rawOutput x < lo →
       (c.update x).2 = lo ∧
       (c.update x).1.integral =
         c.integral + (c.setpoint - x) * c.dt -
           (if c.ki ≠ 0 then (c.rawOutput x - lo) * c.dt / c.ki else 0)) ∧
    (lo ≤ c.rawOutput x → c.rawOutput x ≤ hi →
       (c.update x).2 = c.rawOutput x ∧
       (c.update x).1.integral = c.integral + (c.setpoint - x) * c.dt) := by
  obtain ⟨hout, hint⟩ := update_some_limits c x lo hi hlim
  refine ⟨fun hgt => ?_, fun hlt => ?_, fun hge hle2 => ?_⟩
  · have hcl : max lo (min (c.rawOutput x) hi) = hi := by
      rw [min_eq_right hgt.le, max_eq_right hle]
    constructor
    · rw [hout, hcl]
    · rw [hint, hcl, if_pos (ne_of_gt hgt)]
  · have hcl : max lo (min (c.rawOutput x) hi) = lo := by
      rw [min_eq_left (hlt.le.trans hle), max_eq_left hlt.le]
    constructor
    · rw [hout, hcl]
    · rw [hint, hcl, if_pos (ne_of_lt hlt)]
  · have hcl : max lo (min (c.rawOutput x) hi) = c.rawOutput x := by
      rw [min_eq_left hle2, max_eq_right hge]
    constructor
    · rw [hout, hcl]
    · rw [hint, hcl, if_neg (by simp)]

theorem anti_windup_integral_correction_witness :
    ((PIDController.init 1 (1 / 2) 0 0 (1 / 10)
        (some (-1, 1))).update (-5)).2 = 1 ∧
    ((PIDController.init 1 (1 / 2) 0 0 (1 / 10)
        (some (-1, 1))).update (-5)).1.integral = -7 / 20 := by
  have h := (anti_windup_integral_correction
    (PIDController.init 1 (1 / 2) 0 0 (1 / 10) (some (-1, 1))) (-5) (-1) 1
    rfl (by norm_num)).1
    (by norm_num [PIDController.rawOutput, PIDController.init])
  refine ⟨h.1, ?_⟩
  rw [h.2]
  norm_num [PIDController.rawOutput, PIDController.init]

/-- C6 counterexample: after an absolute trip, a later call that passes the
absolute check and ends with the warning counter at 0 (below the maximum of
3) still returns false, so false is not returned exactly when the counter
reaches max_consecutive_warnings. -/
theorem hysteresis_return_not_iff_counter :
    ((((SafetyMonitor.init 5 100 (1 / 2) 10 100).check 10 0 0).1.check
        0 0 1).2 = false) ∧
    check_safety 0 0
      (((SafetyMonitor.init 5 100 (1 / 2) 10 100).check 10 0 0).1).max_voltage
      (((SafetyMonitor.init 5 100 (1 / 2) 10 100).check 10 0 0).1).max_force =
      true ∧
    ((((SafetyMonitor.init 5 100 (1 / 2) 10 100).check 10 0 0).1.check
        0 0 1).1.consecutive_warnings = 0) ∧
    0 < (((SafetyMonitor.init 5 100 (1 / 2) 10 100).check 10 0 0).1.check
        0 0 1).1.max_consecutive_warnings := by
  refine ⟨?_, ?_, ?_, ?_⟩ <;> decide

/-- C6 (amended): on a check call that passes the absolute check, the counter
is incremented on a rate-check failure and reset to 0 on a pass; is_safe ends
false exactly when it was already false or the updated counter has reached
max_consecutive_warnings (default 3); and when is_safe was true at entry the
call returns false exactly when the updated counter reached the maximum. -/
theorem hysteresis_counter_and_latch (m : SafetyMonitor) (v f t : ℚ)
    (habs : check_safety v f m.max_voltage m.max_force = true) :
    ((m.check v f t).1.consecutive_warnings =
       if (m.add_sample v f t).dynamicSafe v f = true then 0
       else m.consecutive_warnings + 1) ∧
    ((m.check v f t).1.is_safe = false ↔
       (m.is_safe = false ∨
        m.max_consecutive_warnings ≤
          (m.check v f t).1.consecutive_warnings)) ∧
    (m.is_safe = true →
       ((m.check v f t).2 = false ↔
        m.max_consecutive_warnings ≤
          (m.check v f t).1.consecutive_warnings)) ∧
    (SafetyMonitor.init m.max_voltage m.max_force m.max_voltage_rate
       m.max_force_rate m.history_length).max_consecutive_warnings = 3 := by
  have hc := check_counter_of_basic_true m v f t habs
  have hs := check_is_safe_of_basic_true m v f t habs
  have hr := check_snd_eq m v f t
  refine ⟨?_, ?_, ?_, rfl⟩
  · rw [hc]
    by_cases hd : (m.add_sample v f t).dynamicSafe v f = true
    · simp [hd]
    · simp only [Bool.not_eq_true] at hd
      simp [hd]
  · rw [hs]
    by_cases hT : m.max_consecutive_warnings ≤
        (m.check v f t).1.consecutive_warnings <;> simp [hT]
  · intro hsafe
    rw [hr, hs]
    by_cases hT : m.max_consecutive_warnings ≤
        (m.check v f t).1.consecutive_warnings <;> simp [hT, hsafe]

theorem hysteresis_counter_and_latch_witness :
    (SafetyMonitor.init 5 100 (1 / 2) 10 100).max_consecutive_warnings = 3 :=
  (hysteresis_counter_and_latch (SafetyMonitor.init 5 100 (1 / 2) 10 100)
    0 0 0 (by decide)).2.2.2

/-- C7: whenever the two samples compared by the rate check have a
nonpositive timestamp difference, the rate check is skipped and the call is
treated as passing, with the division guarded so it is never executed. -/
theorem zero_dt_rate_check_skipped (v f : ℚ) (hist : List (ℚ × ℚ × ℚ))
    (mv mf mvr mfr : ℚ) (w : ℕ)
    (habs : check_safety v f mv mf = true)
    (hdt : (hist.getD (hist.length - 1) (0, 0, 0)).2.2 ≤
      (negGet hist w).2.2) :
    dynamic_safety_check v f hist mv mf mvr mfr w = true := by
  have hneg : ¬ (0 < (hist.getD (hist.length - 1) (0, 0, 0)).2.2 -
      (negGet hist w).2.2) := not_lt.mpr (sub_nonpos.mpr hdt)
  unfold dynamic_safety_check
  simp only [habs, Bool.true_eq_false, if_false, hneg]
  split <;> rfl

theorem zero_dt_rate_check_skipped_witness :
    dynamic_safety_check 0 0 [(0, 0, 5), (0, 0, 5), (0, 0, 5)]
      1 1 1 1 2 = true :=
  zero_dt_rate_check_skipped 0 0 [(0, 0, 5), (0, 0, 5), (0, 0, 5)]
    1 1 1 1 2 (by decide) (by decide)

/-- C8: with output limits (lo, hi) configured, every value returned by
update lies within [lo, hi]. -/
theorem output_within_limits (c : PIDController) (x lo hi : ℚ)
    (hlim : c.output_limits = some (lo, hi)) (hle : lo ≤ hi) :
    lo ≤ (c.update x).2 ∧ (c.update x).2 ≤ hi := by
  rw [(update_some_limits c x lo hi hlim).1]
  exact ⟨le_max_left lo _, max_le hle (min_le_right _ _)⟩

theorem output_within_limits_witness :
    0 ≤ ((PIDController.init 1 0 0 0 1 (some (0, 1))).update 5).2 ∧
    ((PIDController.init 1 0 0 0 1 (some (0, 1))).update 5).2 ≤ 1 :=
  output_within_limits (PIDController.init 1 0 0 0 1 (some (0, 1))) 5 0 1
    rfl (by norm_num)

/-- C9: reset followed by update(x) returns the same output as a newly
constructed controller with the same current configuration receiving the
single call update(x); reset changes neither the gains nor the setpoint. -/
theorem reset_then_update_eq_fresh (c : PIDController) (x : ℚ) :
    (c.reset.update x).2 =
      ((PIDController.init c.kp c.ki c.kd c.setpoint c.dt
        c.output_limits).update x).2 ∧
    c.reset.kp = c.kp ∧ c.reset.ki = c.ki ∧ c.reset.kd = c.kd ∧
    c.reset.setpoint = c.setpoint :=
  ⟨rfl, rfl, rfl, rfl, rfl⟩

/-- C10: reset leaves last_output unchanged — after any run of updates
followed by one more update, resetting keeps last_output equal to the output
just returned; only the integral accumulator, previous error and the two
history buffers are cleared, with the configuration untouched. -/
theorem reset_preserves_last_output (c : PIDController) (xs : List ℚ)
    (x : ℚ) :
    ((c.runUpdates xs).update x).1.reset.last_output =
      ((c.runUpdates xs).update x).2 ∧
    c.reset.last_output = c.last_output ∧
    c.reset.kp = c.kp ∧ c.reset.ki = c.ki ∧ c.reset.kd = c.kd ∧
    c.reset.setpoint = c.setpoint ∧ c.reset.dt = c.dt ∧
    c.reset.output_limits = c.output_limits ∧
    c.reset.max_history = c.max_history ∧
    c.reset.integral = 0 ∧ c.reset.prev_error = 0 ∧
    c.reset.error_history = [] ∧ c.reset.output_history = [] :=
  ⟨rfl, rfl, rfl, rfl, rfl, rfl, rfl, rfl, rfl, rfl, rfl, rfl, rfl⟩
